import Mathlib

/-!
Shallow embedding of the DMA driver in `src/hal/src/dma.rs` (a line-by-line
port of the ASF DMAC driver to Rust).  Machine integers (`u8`, `u16`, `u32`)
are modelled as `Nat` with explicit reduction modulo `2 ^ 8` / `2 ^ 32` where
the source's arithmetic can wrap; Rust's bitwise complement `!x` on `u32` is
modelled by xor with the all-ones word.  Hardware register writes are
modelled observably: each modelled operation returns, besides the updated
driver state, a record of which writes it performed.  Function-pointer
callbacks are modelled by recording which callback slot (if any) is invoked.
-/

/-- `DMA_INVALID_CHANNEL: u8 = 0xff` — the sentinel for "no channel available". -/
def DMA_INVALID_CHANNEL : Nat := 0xff

/-- `CONF_MAX_USED_CHANNEL_NUM: usize = 2` — the compile-time channel count N. -/
def CONF_MAX_USED_CHANNEL_NUM : Nat := 2

/-- Rust's bitwise complement `!x` on a `u32` value: xor with `u32::MAX`.
In particular `not32 x = 0` only if `x = 2 ^ 32 - 1`. -/
def not32 (x : Nat) : Nat := (2 ^ 32 - 1) ^^^ (x % 2 ^ 32)

/-- `DmaPriorityLevel` from `dma.rs`. -/
inductive DmaPriorityLevel where
  | Level0
  | Level1
  | Level2
  | Level3
deriving DecidableEq, Repr

/-- `DmaEventInputAction` from `dma.rs` (DMA event input actions). -/
inductive DmaEventInputAction where
  | NoAct
  | Trig
  | CTrig
  | CBlock
  | Suspend
  | Resume
  | SSkip
deriving DecidableEq, Repr

/-- The Rust discriminant of `DmaEventInputAction` (`as usize`): fieldless
enums number their variants from 0 in declaration order. -/
def DmaEventInputAction.discr : DmaEventInputAction → Nat
  | .NoAct => 0
  | .Trig => 1
  | .CTrig => 2
  | .CBlock => 3
  | .Suspend => 4
  | .Resume => 5
  | .SSkip => 6

/-- `DmaTransferTriggerAction` from `dma.rs`. -/
inductive DmaTransferTriggerAction where
  | Block
  | Beat
  | Transaction
deriving DecidableEq, Repr

/-- `DmaCallbackType` from `dma.rs`: callback slots indexed by event kind. -/
inductive DmaCallbackType where
  | Error
  | Done
  | Suspend
  | N
deriving DecidableEq, Repr

/-- The Rust discriminant of `DmaCallbackType` (`as usize`):
`Error = 0`, `Done = 1`, `Suspend = 2`, `N = 3`. -/
def DmaCallbackType.discr : DmaCallbackType → Nat
  | .Error => 0
  | .Done => 1
  | .Suspend => 2
  | .N => 3

/-- `StatusCode` from `dma.rs`. -/
inductive StatusCode where
  | OK
  | Busy
  | Uninitialized
  | Suspend
  | ErrIO
  | ErrNotFound
  | ErrInvalidArg
deriving DecidableEq, Repr

/-- `DmaEventsConfig` from `dma.rs`. -/
structure DmaEventsConfig where
  input_action : DmaEventInputAction
  event_output_enable : Bool
deriving DecidableEq, Repr

/-- `DmaResourceConfig` from `dma.rs`. -/
structure DmaResourceConfig where
  priority : DmaPriorityLevel
  peripheral_trigger : Nat
  trigger_action : DmaTransferTriggerAction
  event_config : DmaEventsConfig
deriving DecidableEq, Repr

/-- `DmaResource` from `dma.rs`, restricted to the fields the modelled
operations read or write.  The `callback: [DmaCallback; 3]` array of function
pointers is modelled observably (the dispatcher reports which slot it
invokes, see `DispatchResult.invoked`); the owned `descriptor` field is not
touched by any modelled operation. `channel_id` and `callback_enable` are
`u8`, `transferred_size` is `u32`. -/
structure DmaResource where
  channel_id : Nat
  callback_enable : Nat
  job_status : StatusCode
  transferred_size : Nat
deriving DecidableEq, Repr

/-- `DmaModule` from `dma.rs`: the process-wide allocator state `dma_inst`
(`dma_init: bool`, `allocated_channels: u32`, `free_channels: u8`). -/
structure DmaModule where
  dma_init : Bool
  allocated_channels : Nat
  free_channels : Nat
deriving DecidableEq, Repr

/-- The initial value of the `dma_inst` static:
`{ dma_init: false, allocated_channels: 0, free_channels: CONF_MAX_USED_CHANNEL_NUM }`. -/
def dma_inst_initial : DmaModule :=
  { dma_init := false
    allocated_channels := 0
    free_channels := CONF_MAX_USED_CHANNEL_NUM }

/-- The loop body of `_dma_find_first_free_channel_and_allocate`
(`for count in 0..CONF_MAX_USED_CHANNEL_NUM`), carrying the loop counter
`count` and the shifted copy `tmp` of the bitmask.  The guard transcribes
the source's `!(tmp & 0x00000001) == 0` with Rust `u32` semantics: `!` is
the bitwise complement, so the guard compares `not32 (tmp &&& 1)` with `0`.
In the branch, `free_channels -= 1` is `u8` wrapping subtraction.  The
result carries the final state, the `allocated` flag and the counter value
at exit (on normal loop exit the source would return the never-initialised
outer `count`, but that value is only returned when `allocated` is true,
i.e. after a `break`, so the fuel-exhaustion counter value is irrelevant). -/
def allocGo : Nat → Nat → Nat → DmaModule → DmaModule × Bool × Nat
  | 0, count, _tmp, s => (s, false, count)
  | fuel + 1, count, tmp, s =>
    if not32 (tmp &&& 1) = 0 then
      ({ s with
          allocated_channels := (s.allocated_channels ||| ((1 <<< count) % 2 ^ 32)) % 2 ^ 32
          free_channels := (s.free_channels + 255) % 256 },
        true, count)
    else allocGo fuel (count + 1) (tmp >>> 1) s

/-- `_dma_find_first_free_channel_and_allocate` from `dma.rs` (lines
251-280): scan the allocation bitmask; if the guard fires, set the bit,
decrement the free counter and return the index; otherwise return
`DMA_INVALID_CHANNEL`.  Critical-section enter/leave are `unimplemented!()`
stubs in the source and are not modelled. -/
def dma_find_first_free_channel_and_allocate (s : DmaModule) : DmaModule × Nat :=
  let r := allocGo CONF_MAX_USED_CHANNEL_NUM 0 s.allocated_channels s
  if r.2.1 then (r.1, r.2.2) else (r.1, DMA_INVALID_CHANNEL)

/-- `_dma_release_channel` from `dma.rs` (lines 282-285):
`allocated_channels &= !(1 << channel); free_channels += 1;` with `u32`
bitwise complement and `u8` wrapping increment. -/
def dma_release_channel (s : DmaModule) (channel : Nat) : DmaModule :=
  { s with
    allocated_channels := s.allocated_channels &&& not32 ((1 <<< channel) % 2 ^ 32)
    free_channels := (s.free_channels + 1) % 256 }

/-- `dma_get_config_defaults` from `dma.rs` (lines 382-393). -/
def dma_get_config_defaults : DmaResourceConfig :=
  { priority := DmaPriorityLevel.Level0
    peripheral_trigger := 0
    trigger_action := DmaTransferTriggerAction.Transaction
    event_config :=
      { input_action := DmaEventInputAction.NoAct
        event_output_enable := false } }

/-- The image of the CHCTRLB register write performed by `_dma_set_config`:
priority level, trigger source, trigger action, and the conditionally
programmed event wiring (`evie`/`evact` only when the input action's
discriminant is non-zero, `evoe` only when event output is enabled). -/
structure ChCtrlB where
  lvl : DmaPriorityLevel
  trigsrc : Nat
  trigact : DmaTransferTriggerAction
  evie : Bool
  evact : Option DmaEventInputAction
  evoe : Bool
deriving DecidableEq, Repr

/-- `_dma_set_config` from `dma.rs` (lines 287-311), modelled as the CHCTRLB
register image it writes for the given configuration.  The channel-select
(CHID) write and the software-trigger clear that precede it concern only
which channel the image is applied to and are recorded by the caller
(`dma_allocate`) through its own channel fields. -/
def dma_set_config (resource_config : DmaResourceConfig) : ChCtrlB :=
  { lvl := resource_config.priority
    trigsrc := resource_config.peripheral_trigger
    trigact := resource_config.trigger_action
    evie := resource_config.event_config.input_action.discr ≠ 0
    evact :=
      if resource_config.event_config.input_action.discr ≠ 0 then
        some resource_config.event_config.input_action
      else none
    evoe := resource_config.event_config.event_output_enable }

/-- The observable outcome of one `dma_allocate` call (lines 395-463):
the returned status, the updated `dma_inst` state, whether the one-time
controller bring-up block (clock enable, software reset, descriptor and
write-back base address programming, priority-level enable, lines 400-427)
ran, the channel id written into `resource.channel_id` (line 439), the
channel put through a CHCTRLA software reset (lines 442-448), the CHCTRLB
image applied by `_dma_set_config` (line 451), and the active-resource
table slot written (line 457).  `none` in a field means the corresponding
write did not happen. -/
structure AllocResult where
  status : StatusCode
  state : DmaModule
  bringup_performed : Bool
  resource_channel : Option Nat
  channel_reset : Option Nat
  config_applied : Option ChCtrlB
  table_write : Option Nat
deriving DecidableEq, Repr

/-- `dma_allocate` from `dma.rs` (lines 395-463).  The bring-up block is
guarded by `if dma_inst.dma_init { ... dma_inst.dma_init = true; }` — the
guard as written runs the block when the flag is already `true` and is a
no-op on the flag.  Then the channel scan runs; on `DMA_INVALID_CHANNEL`
the call returns `ErrNotFound` before any channel write; otherwise the
channel id is stored, the channel is reset, configured, and logged in the
active-resource table. -/
def dma_allocate (s : DmaModule) (config : DmaResourceConfig) : AllocResult :=
  let bring := s.dma_init
  let s1 := if s.dma_init then { s with dma_init := true } else s
  let p := dma_find_first_free_channel_and_allocate s1
  if p.2 = DMA_INVALID_CHANNEL then
    { status := StatusCode.ErrNotFound
      state := p.1
      bringup_performed := bring
      resource_channel := none
      channel_reset := none
      config_applied := none
      table_write := none }
  else
    { status := StatusCode.OK
      state := p.1
      bringup_performed := bring
      resource_channel := some p.2
      channel_reset := some p.2
      config_applied := some (dma_set_config config)
      table_write := some p.2 }

/-- Abnormal terminations of `DMAC_Handler` in the modelled (debug-build)
semantics: `unwrapNone` is `Option::unwrap` on `None`; `uninitLocal` is the
read of the local `resource` on the path that never assigns it (the
`is_some` side of the inverted guard at line 327, which real Rust rejects
at compile time); `subUnderflow` is `u32` subtraction underflow at
line 338. -/
inductive HandlerFault where
  | unwrapNone
  | uninitLocal
  | subUnderflow
deriving DecidableEq, Repr

/-- The CHINTFLAG/CHINTENCLR bit masks for the three channel interrupt
flags on this DMAC: TERR is bit 0, TCMPL is bit 1, SUSP is bit 2.  The
source tests `isr & chintenclr.read().terr()` etc. where the ASF original
uses the constant masks `DMAC_CHINTENCLR_TERR`/`_TCMPL`/`_SUSP`; these
constants are those masks. -/
def DMAC_CHINT_TERR : Nat := 1

/-- TCMPL (transfer complete) mask: bit 1 of CHINTFLAG. -/
def DMAC_CHINT_TCMPL : Nat := 2

/-- SUSP (channel suspend) mask: bit 2 of CHINTFLAG. -/
def DMAC_CHINT_SUSP : Nat := 4

/-- The observable outcome of the dispatch stage of `DMAC_Handler`:
the resource after its `transferred_size` and `job_status` updates, which
interrupt flag (if any) was written-to-clear in CHINTFLAG, and which
callback slot (if any) was invoked. -/
structure DispatchResult where
  resource : DmaResource
  cleared : Option DmaCallbackType
  invoked : Option DmaCallbackType
deriving DecidableEq, Repr

/-- The interrupt classification chain of `DMAC_Handler` (lines 340-378),
acting on the resource already updated with its transferred size: an
`if / else if / else if` chain testing the TERR, then TCMPL, then SUSP bit
of the CHINTFLAG value `isr`; the branch taken clears its flag, sets the
job status (`ErrIO` / `OK` / `Suspend`), and invokes the callback slot of
that event kind iff the corresponding bit of `callback_enable` is set. -/
def dmac_classify (resource : DmaResource) (isr : Nat) : DispatchResult :=
  if isr &&& DMAC_CHINT_TERR ≠ 0 then
    { resource := { resource with job_status := StatusCode.ErrIO }
      cleared := some DmaCallbackType.Error
      invoked :=
        if resource.callback_enable &&& (1 <<< DmaCallbackType.Error.discr) ≠ 0 then
          some DmaCallbackType.Error
        else none }
  else if isr &&& DMAC_CHINT_TCMPL ≠ 0 then
    { resource := { resource with job_status := StatusCode.OK }
      cleared := some DmaCallbackType.Done
      invoked :=
        if resource.callback_enable &&& (1 <<< DmaCallbackType.Done.discr) ≠ 0 then
          some DmaCallbackType.Done
        else none }
  else if isr &&& DMAC_CHINT_SUSP ≠ 0 then
    { resource := { resource with job_status := StatusCode.Suspend }
      cleared := some DmaCallbackType.Suspend
      invoked :=
        if resource.callback_enable &&& (1 <<< DmaCallbackType.Suspend.discr) ≠ 0 then
          some DmaCallbackType.Suspend
        else none }
  else
    { resource := resource
      cleared := none
      invoked := none }

/-- The event kind the classification chain dispatches for a given
CHINTFLAG value, following the same priority order Error, then Done, then
Suspend (`none` when no flag is set). -/
def dmac_dispatched_kind (isr : Nat) : Option DmaCallbackType :=
  if isr &&& DMAC_CHINT_TERR ≠ 0 then some DmaCallbackType.Error
  else if isr &&& DMAC_CHINT_TCMPL ≠ 0 then some DmaCallbackType.Done
  else if isr &&& DMAC_CHINT_SUSP ≠ 0 then some DmaCallbackType.Suspend
  else none

/-- The progress computation and dispatch of `DMAC_Handler` (lines
335-378): `total_size` is the configured block count (the primary
descriptor's `btcnt`), `write_size` the remaining count (the write-back
descriptor's `btcnt`); `resource.transferred_size = total_size -
write_size` is a `u32` subtraction (a panic on underflow in a debug
build), then the classification chain runs. -/
def dmac_dispatch (resource : DmaResource) (isr total_size write_size : Nat) :
    Except HandlerFault DispatchResult :=
  if write_size ≤ total_size then
    Except.ok
      (dmac_classify { resource with transferred_size := total_size - write_size } isr)
  else Except.error HandlerFault.subUnderflow

/-- The resource lookup of `DMAC_Handler` (lines 326-332).  The source
reads `_dma_active_resource` (an `Option` of a reference table) and — under
the guard `if _dma_active_resource.is_none()` — assigns `resource` from
`_dma_active_resource.unwrap()[active_channel]`.  When the table is `None`
(no resource registered) the guard is taken and `unwrap()` panics; when it
is `Some` the guard is not taken and `resource` is used without ever being
assigned. -/
def dma_active_resource_lookup (table : Option (List DmaResource))
    (_active_channel : Nat) : Except HandlerFault DmaResource :=
  match table with
  | none => Except.error HandlerFault.unwrapNone
  | some _ => Except.error HandlerFault.uninitLocal

/-- `DMAC_Handler` from `dma.rs` (lines 313-380): look up the active
resource for the pending channel, then compute the transferred size and
run the classification chain on the CHINTFLAG value `isr`. -/
def DMAC_Handler (table : Option (List DmaResource)) (active_channel : Nat)
    (isr total_size write_size : Nat) : Except HandlerFault DispatchResult :=
  match dma_active_resource_lookup table active_channel with
  | Except.error e => Except.error e
  | Except.ok resource => dmac_dispatch resource isr total_size write_size

/-- The allocator states reachable from the initial `dma_inst` by the
modelled operations, with release applied only to currently-allocated
channels (bit set in the allocation bitmask). -/
inductive Reachable : DmaModule → Prop where
  | init : Reachable dma_inst_initial
  | alloc {s : DmaModule} :
      Reachable s → Reachable (dma_find_first_free_channel_and_allocate s).1
  | release {s : DmaModule} {ch : Nat} :
      Reachable s → Nat.testBit s.allocated_channels ch = true →
      Reachable (dma_release_channel s ch)

/-- Binary digit summation with fuel (the fuel bounds the number of digits
processed; `n` itself is always enough fuel for `n`). -/
def popcountAux : Nat → Nat → Nat
  | 0, _ => 0
  | fuel + 1, n => if n = 0 then 0 else n % 2 + popcountAux fuel (n / 2)

/-- Population count of a natural number's binary representation. -/
def popcount (n : Nat) : Nat := popcountAux n n

/-- The scan guard `!(tmp & 1) == 0` can never hold on `u32`: the
complement of a value in `\x7b0, 1\x7d` is at least `2 ^ 32 - 2`. -/
lemma not32_and_one_ne_zero (tmp : Nat) : not32 (tmp &&& 1) ≠ 0 := by
  have h : tmp &&& 1 = tmp % 2 := Nat.and_one_is_mod tmp
  rcases Nat.mod_two_eq_zero_or_one tmp with h2 | h2 <;>
    simp only [not32, h, h2] <;> decide

/-- The scan loop never takes its allocation branch: it returns the state
unchanged with `allocated = false`. -/
lemma allocGo_eq (fuel count tmp : Nat) (s : DmaModule) :
    allocGo fuel count tmp s = (s, false, count + fuel) := by
  induction fuel generalizing count tmp with
  | zero => simp only [allocGo, Nat.add_zero]
  | succ n ih =>
    rw [allocGo, if_neg (not32_and_one_ne_zero tmp), ih]
    simp only [Nat.add_succ, Nat.succ_add]

/-- `_dma_find_first_free_channel_and_allocate` returns the sentinel and
leaves the allocator state unchanged, for every state. -/
lemma find_const (s : DmaModule) :
    dma_find_first_free_channel_and_allocate s = (s, DMA_INVALID_CHANNEL) := by
  unfold dma_find_first_free_channel_and_allocate
  rw [allocGo_eq]
  rfl

/-- Every reachable allocator state is the initial one: allocation never
mutates the state, and release requires a set bit, of which the initial
(zero) bitmask has none. -/
lemma reachable_eq (s : DmaModule) (h : Reachable s) : s = dma_inst_initial := by
  induction h with
  | init => rfl
  | alloc _ ih => rw [ih, find_const]
  | release _ hbit ih =>
    rw [ih] at hbit
    simp [dma_inst_initial, Nat.zero_testBit] at hbit

/-- The classification chain never changes `transferred_size`. -/
lemma classify_transferred (r : DmaResource) (isr : Nat) :
    (dmac_classify r isr).resource.transferred_size = r.transferred_size := by
  unfold dmac_classify
  repeat' split
  all_goals rfl

/-- C1: the spec requires the allocator to return the lowest clear bit,
set it and decrement the free counter when a clear bit exists, and to
return `DMA_INVALID_CHANNEL` exactly when none does.  The code violates
this: the guard `!(tmp & 1) == 0` is a `u32` bitwise complement compared
with zero and can never hold, so for EVERY state — including states with
clear bits, such as the all-free initial state — the function returns the
sentinel and leaves the bitmask and counter unchanged. -/
theorem C1_allocator_never_allocates (s : DmaModule) :
    dma_find_first_free_channel_and_allocate s = (s, DMA_INVALID_CHANNEL) :=
  find_const s

/-- C2: the spec requires the one-time bring-up to run exactly when the
`dma_init` flag is false at entry (i.e. on the first allocation).  The
code's guard is inverted (`if dma_inst.dma_init` instead of its negation):
on the first allocation from the initial state no bring-up is performed
and the flag stays false. -/
theorem C2_first_allocation_performs_no_bringup :
    (dma_allocate dma_inst_initial dma_get_config_defaults).bringup_performed = false ∧
    (dma_allocate dma_inst_initial dma_get_config_defaults).state.dma_init = false :=
  ⟨rfl, rfl⟩

/-- C3: the spec requires a completion event for a channel with no
registered active resource to be silently absorbed (no callback, no
crash).  The code's guard is inverted (`if _dma_active_resource.is_none()`
guards the table access): with no resource registered (table `None`) the
handler calls `unwrap()` on `None` and panics instead of terminating
normally. -/
theorem C3_stale_interrupt_crashes_handler :
    DMAC_Handler none 0 2 10 4 = Except.error HandlerFault.unwrapNone := rfl

/-- C4: allocating in a state where all channels are taken (and the
bring-up flag is false at entry, as in every reachable state) returns
`ErrNotFound`, returns no channel id, performs no channel reset, applies
no configuration, writes no active-resource-table entry, performs no
bring-up, and leaves the allocator state unchanged. -/
theorem C4_exhausted_allocation_err_not_found (s : DmaModule) (config : DmaResourceConfig)
    (hinit : s.dma_init = false)
    (hfull : ∀ i, i < CONF_MAX_USED_CHANNEL_NUM → Nat.testBit s.allocated_channels i = true) :
    (dma_allocate s config).status = StatusCode.ErrNotFound ∧
    (dma_allocate s config).state = s ∧
    (dma_allocate s config).resource_channel = none ∧
    (dma_allocate s config).channel_reset = none ∧
    (dma_allocate s config).config_applied = none ∧
    (dma_allocate s config).table_write = none ∧
    (dma_allocate s config).bringup_performed = false := by
  simp [dma_allocate, hinit, find_const]

/-- Witness for C4 at the concrete full state (bitmask `0b11`, free
counter 0, flag false) and the default configuration. -/
theorem C4_exhausted_allocation_err_not_found_witness :
    ((⟨false, 3, 0⟩ : DmaModule).dma_init = false ∧
      (∀ i, i < CONF_MAX_USED_CHANNEL_NUM →
        Nat.testBit (⟨false, 3, 0⟩ : DmaModule).allocated_channels i = true)) ∧
    (dma_allocate ⟨false, 3, 0⟩ dma_get_config_defaults).status = StatusCode.ErrNotFound ∧
    (dma_allocate ⟨false, 3, 0⟩ dma_get_config_defaults).state = ⟨false, 3, 0⟩ :=
  ⟨⟨rfl, by decide⟩,
    (C4_exhausted_allocation_err_not_found ⟨false, 3, 0⟩ dma_get_config_defaults rfl
      (by decide)).1,
    (C4_exhausted_allocation_err_not_found ⟨false, 3, 0⟩ dma_get_config_defaults rfl
      (by decide)).2.1⟩

/-- C5: with configured block count K and write-back remaining count R,
0 ≤ R ≤ K, the dispatch stage succeeds and sets the resource's
`transferred_size` to exactly K - R (the exact difference: adding R back
recovers K), for every prior value of the field (recomputed, not cached). -/
theorem C5_transferred_size_eq (resource : DmaResource) (isr K R : Nat) (h : R ≤ K) :
    ∃ out, dmac_dispatch resource isr K R = Except.ok out ∧
      out.resource.transferred_size = K - R ∧ (K - R) + R = K := by
  refine ⟨dmac_classify { resource with transferred_size := K - R } isr, ?_, ?_, ?_⟩
  · simp [dmac_dispatch, h]
  · rw [classify_transferred]
  · exact Nat.sub_add_cancel h

/-- Witness for C5 at K = 5, R = 3 and a resource whose stale
`transferred_size` field holds 7: the recomputed value is 2. -/
theorem C5_transferred_size_eq_witness :
    3 ≤ 5 ∧
    ∃ out, dmac_dispatch ⟨0, 0, StatusCode.OK, 7⟩ 2 5 3 = Except.ok out ∧
      out.resource.transferred_size = 5 - 3 ∧ (5 - 3) + 3 = 5 :=
  ⟨by decide, C5_transferred_size_eq ⟨0, 0, StatusCode.OK, 7⟩ 2 5 3 (by decide)⟩

/-- C6: classification follows the priority order Error over Done over
Suspend, the first matching flag winning: if TERR is set the error flag is
cleared and the status becomes `ErrIO`; otherwise if TCMPL is set that
flag is cleared and the status becomes `OK`; otherwise if SUSP is set that
flag is cleared and the status becomes `Suspend`. -/
theorem C6_classification_priority (resource : DmaResource) (isr : Nat) :
    (isr &&& DMAC_CHINT_TERR ≠ 0 →
      (dmac_classify resource isr).cleared = some DmaCallbackType.Error ∧
      (dmac_classify resource isr).resource.job_status = StatusCode.ErrIO) ∧
    (isr &&& DMAC_CHINT_TERR = 0 → isr &&& DMAC_CHINT_TCMPL ≠ 0 →
      (dmac_classify resource isr).cleared = some DmaCallbackType.Done ∧
      (dmac_classify resource isr).resource.job_status = StatusCode.OK) ∧
    (isr &&& DMAC_CHINT_TERR = 0 → isr &&& DMAC_CHINT_TCMPL = 0 →
      isr &&& DMAC_CHINT_SUSP ≠ 0 →
      (dmac_classify resource isr).cleared = some DmaCallbackType.Suspend ∧
      (dmac_classify resource isr).resource.job_status = StatusCode.Suspend) := by
  refine ⟨fun h1 => ?_, fun h1 h2 => ?_, fun h1 h2 h3 => ?_⟩ <;>
    simp [dmac_classify, h1]
  · simp [h2]
  · simp [h2, h3]

/-- Witness for C6 at `isr = 4` (only SUSP set): the suspend flag is
cleared and the status becomes `Suspend`. -/
theorem C6_classification_priority_witness :
    ((4 : Nat) &&& DMAC_CHINT_TERR = 0 ∧ (4 : Nat) &&& DMAC_CHINT_TCMPL = 0 ∧
      (4 : Nat) &&& DMAC_CHINT_SUSP ≠ 0) ∧
    (dmac_classify ⟨0, 7, StatusCode.OK, 0⟩ 4).cleared = some DmaCallbackType.Suspend ∧
    (dmac_classify ⟨0, 7, StatusCode.OK, 0⟩ 4).resource.job_status = StatusCode.Suspend :=
  ⟨by decide,
    (C6_classification_priority ⟨0, 7, StatusCode.OK, 0⟩ 4).2.2 (by decide) (by decide)
      (by decide)⟩

/-- C7: for the event kind the chain dispatches, the callback slot of that
kind is invoked exactly when the bit of that kind is set in the resource's
`callback_enable` mask, and no other slot is ever invoked; in particular a
resource with only the Done bit enabled receives no invocation when the
Error flag is the one set. -/
theorem C7_callback_enable_gating (resource : DmaResource) (isr : Nat)
    (k : DmaCallbackType) (hk : dmac_dispatched_kind isr = some k) :
    (dmac_classify resource isr).invoked =
      if resource.callback_enable &&& (1 <<< k.discr) ≠ 0 then some k else none := by
  unfold dmac_dispatched_kind at hk
  by_cases h1 : isr &&& DMAC_CHINT_TERR ≠ 0
  · rw [if_pos h1] at hk
    cases hk
    simp [dmac_classify, h1]
  · rw [if_neg h1] at hk
    by_cases h2 : isr &&& DMAC_CHINT_TCMPL ≠ 0
    · rw [if_pos h2] at hk
      cases hk
      simp [dmac_classify, h1, h2]
    · rw [if_neg h2] at hk
      by_cases h3 : isr &&& DMAC_CHINT_SUSP ≠ 0
      · rw [if_pos h3] at hk
        cases hk
        simp [dmac_classify, h1, h2, h3]
      · rw [if_neg h3] at hk
        exact absurd hk (by simp)

/-- Witness for C7 at the claim's scenario: enable mask `0b10` (only
Done), `isr = 1` (Error flag set): no callback is invoked. -/
theorem C7_callback_enable_gating_witness :
    dmac_dispatched_kind 1 = some DmaCallbackType.Error ∧
    (dmac_classify ⟨0, 2, StatusCode.OK, 0⟩ 1).invoked = none :=
  ⟨by decide,
    (C7_callback_enable_gating ⟨0, 2, StatusCode.OK, 0⟩ 1 DmaCallbackType.Error
      (by decide)).trans (by decide)⟩

/-- C8: in every allocator state reachable by allocate and (guarded)
release from the initial state, the population count of the allocation
bitmask plus the free-channel counter equals `CONF_MAX_USED_CHANNEL_NUM`. -/
theorem C8_popcount_invariant (s : DmaModule) (h : Reachable s) :
    popcount s.allocated_channels + s.free_channels = CONF_MAX_USED_CHANNEL_NUM := by
  rw [reachable_eq s h]
  decide

/-- Witness for C8 at the initial state. -/
theorem C8_popcount_invariant_witness :
    Reachable dma_inst_initial ∧
    popcount dma_inst_initial.allocated_channels + dma_inst_initial.free_channels =
      CONF_MAX_USED_CHANNEL_NUM :=
  ⟨Reachable.init, C8_popcount_invariant dma_inst_initial Reachable.init⟩

/-- C9: the spec's N = 2 scenario requires the first two allocations from
the initial state to return ids 0 and 1.  The code fails at the very first
step: from the initial (all-free) state the scan returns
`DMA_INVALID_CHANNEL` (0xff), not id 0, because its guard can never hold. -/
theorem C9_first_allocation_returns_sentinel :
    (dma_find_first_free_channel_and_allocate dma_inst_initial).2 = DMA_INVALID_CHANNEL ∧
    (dma_find_first_free_channel_and_allocate dma_inst_initial).2 ≠ 0 := by
  constructor
  · rfl
  · decide

/-- C10: the default configuration is priority `Level0`, peripheral
trigger 0, trigger action `Transaction`, event input action `NoAct`,
event output disabled; under `_dma_set_config`'s conditional event
programming this default enables no event wiring (no `evie`, no `evact`
bits written, no `evoe`). -/
theorem C10_default_config_no_event_wiring :
    dma_get_config_defaults.priority = DmaPriorityLevel.Level0 ∧
    dma_get_config_defaults.peripheral_trigger = 0 ∧
    dma_get_config_defaults.trigger_action = DmaTransferTriggerAction.Transaction ∧
    dma_get_config_defaults.event_config.input_action = DmaEventInputAction.NoAct ∧
    dma_get_config_defaults.event_config.event_output_enable = false ∧
    (dma_set_config dma_get_config_defaults).evie = false ∧
    (dma_set_config dma_get_config_defaults).evact = none ∧
    (dma_set_config dma_get_config_defaults).evoe = false := by
  decide
